import Mathlib

/-!
Skaffold global config: context resolution, lookup, lookup-or-create, list.

A shallow embedding of `cmd/skaffold/app/cmd/config/util.go` and
`cmd/skaffold/app/cmd/config/list.go`.

* Package-level variables (`kubecontext`, `configFile`, `global`, `showAll`)
  and the file store are threaded explicitly through a `State`.
* Calls into other packages (`context.CurrentContext`, `filepath`, `homedir`,
  `os`, `ioutil`, `yaml`) are fields of `Ext`; every theorem holds for all
  behaviours of these collaborators.
* A Go result `(*ContextConfig, error)` is an `Except Error (Option ContextConfig)`:
  `.ok none` is `(nil, nil)`, `.error e` is `(nil, e)`.
-/

set_option autoImplicit false

namespace Skaffold

/-- Go `error` values: one built by `fmt.Errorf` (or by a collaborator) with
its message, or one built by `errors.Wrap(cause, msg)`. -/
inductive Error where
  | errorf (msg : String)
  | wrap (cause : Error) (msg : String)
  deriving DecidableEq, Repr

/-- Modelled from the spec: the declaration of `ContextConfig` is not among the
sources. It has the string key `Kubecontext` plus a set of settings that the
code here never inspects; `settings = []` is the record with every other
field unset. -/
structure ContextConfig where
  Kubecontext : String
  settings : List (String × String)
  deriving DecidableEq, Repr

/-- Modelled from the spec: the declaration of `Config` is not among the
sources. `Global` is one optional record (a pointer that may be nil),
`ContextConfigs` the ordered list of per-context records. -/
structure Config where
  Global : Option ContextConfig
  ContextConfigs : List ContextConfig
  deriving DecidableEq, Repr

/-- The collaborators outside the package. `φ` is the state of the file store,
`β` the type of serialized bytes. `writeFile` yields its error together with
the store it leaves: a failing write may have truncated or partly written the
file, so the store after a failure is not assumed to be the one before. -/
structure Ext (φ β : Type) where
  /-- The result pair `(context, err)` of `context.CurrentContext()`. -/
  currentContext : String × Option Error
  /-- The function `filepath.IsAbs`. -/
  isAbs : String → Bool
  /-- The function `filepath.Abs`. -/
  abs : String → Except Error String
  /-- The function `homedir.Dir`. -/
  homeDir : Except Error String
  /-- The function `filepath.Join` on two elements. -/
  join : String → String → String
  /-- The error of `os.Stat`, `none` for nil. -/
  stat : φ → String → Option Error
  /-- The function `ioutil.ReadFile`. -/
  readFile : φ → String → Except Error β
  /-- The function `ioutil.WriteFile`: its error, `none` for nil, and the store
  afterwards. -/
  writeFile : φ → String → β → Option Error × φ
  /-- The function `yaml.Unmarshal` into a zero `Config`. -/
  unmarshal : β → Except Error Config
  /-- The function `yaml.Marshal` on a `Config`. -/
  marshalConfig : Config → Except Error β
  /-- The function `yaml.Marshal` on a `*ContextConfig`, which may be nil. -/
  marshalContextConfig : Option ContextConfig → Except Error β

/-- The package-level variables, the file store, and a ghost log of the
`(path, contents)` pairs handed to `ioutil.WriteFile`. -/
structure State (φ β : Type) where
  kubecontext : String
  configFile : String
  global : Bool
  showAll : Bool
  fs : φ
  writes : List (String × β)
  deriving DecidableEq, Repr

variable {φ β : Type}

/-- The constant `defaultConfigLocation`. -/
def defaultConfigLocation : String := ".skaffold/config"

/-- The function `resolveKubectlContext`; the two logging calls are left out.
The three assignments to `kubecontext` happen in sequence, as in the source. -/
def resolveKubectlContext (x : Ext φ β) (s : State φ β) : State φ β :=
  if s.kubecontext ≠ "" then s
  else
    let context := x.currentContext.1
    let err := x.currentContext.2
    let s1 := if err ≠ none then { s with kubecontext := "default" } else s
    let s2 := if context = "" then { s1 with kubecontext := "default" } else s1
    { s2 with kubecontext := context }

/-- The function `resolveConfigFile`: the returned option is the Go `error`. -/
def resolveConfigFile (x : Ext φ β) (s : State φ β) : Option Error × State φ β :=
  let located : Except Error (State φ β) :=
    if s.configFile ≠ "" then
      if !x.isAbs s.configFile then
        match x.abs s.configFile with
        | .error err => .error err
        | .ok absPath => .ok { s with configFile := absPath }
      else .ok s
    else
      match x.homeDir with
      | .error err => .error (.wrap err "retrieving home directory")
      | .ok home => .ok { s with configFile := x.join home defaultConfigLocation }
  match located with
  | .error err => (some err, s)
  | .ok s1 => (x.stat s1.fs s1.configFile, s1)

/-- The function `ReadConfigForFile`. -/
def ReadConfigForFile (x : Ext φ β) (fs : φ) (filename : String) : Except Error Config :=
  match x.readFile fs filename with
  | .error err => .error (.wrap err "reading global config")
  | .ok contents =>
    match x.unmarshal contents with
    | .error err => .error (.wrap err "unmarshalling global skaffold config")
    | .ok config => .ok config

/-- The function `readConfig`. -/
def readConfig (x : Ext φ β) (s : State φ β) : Except Error Config × State φ β :=
  match resolveConfigFile x s with
  | (some err, s1) => (.error (.wrap err "resolving config file location"), s1)
  | (none, s1) => (ReadConfigForFile x s1.fs s1.configFile, s1)

/-- The loop `for _, contextCfg := range cfg.ContextConfigs` shared by
`getConfigForKubectx` and `getOrCreateConfigForKubectx`: the record at which
the loop returns, or `none` when it runs to the end. -/
def rangeContextConfigs (kubecontext : String) : List ContextConfig → Option ContextConfig
  | [] => none
  | contextCfg :: rest =>
    if contextCfg.Kubecontext = kubecontext then some contextCfg
    else rangeContextConfigs kubecontext rest

/-- The function `getConfigForKubectx`. -/
def getConfigForKubectx (x : Ext φ β) (s : State φ β) :
    Except Error (Option ContextConfig) × State φ β :=
  match readConfig x s with
  | (.error err, s1) => (.error err, s1)
  | (.ok cfg, s1) =>
    if s1.global then (.ok cfg.Global, s1)
    else
      match rangeContextConfigs s1.kubecontext cfg.ContextConfigs with
      | some contextCfg => (.ok (some contextCfg), s1)
      | none =>
        (.error (.errorf ("no config entry found for kube-context " ++ s1.kubecontext)), s1)

/-- Modelled from the spec: `writeFullConfig` is defined outside the sources.
It persists the entire config back to the path in `configFile`, overwriting
it: the config is serialized and the bytes are written. A failure of either
step is returned. The spec does not say what a failed write leaves in the
file, so the store afterwards is whatever the write left. -/
def writeFullConfig (x : Ext φ β) (cfg : Config) (s : State φ β) :
    Option Error × State φ β :=
  match x.marshalConfig cfg with
  | .error err => (some err, s)
  | .ok contents =>
    let s1 := { s with writes := s.writes ++ [(s.configFile, contents)] }
    match x.writeFile s.fs s.configFile contents with
    | (some err, fs1) => (some err, { s1 with fs := fs1 })
    | (none, fs1) => (none, { s1 with fs := fs1 })

/-- The function `getOrCreateConfigForKubectx`. -/
def getOrCreateConfigForKubectx (x : Ext φ β) (s : State φ β) :
    Except Error (Option ContextConfig) × State φ β :=
  match readConfig x s with
  | (.error err, s1) => (.error err, s1)
  | (.ok cfg, s1) =>
    if s1.global then (.ok cfg.Global, s1)
    else
      match rangeContextConfigs s1.kubecontext cfg.ContextConfigs with
      | some contextCfg => (.ok (some contextCfg), s1)
      | none =>
        let newCfg : ContextConfig := { Kubecontext := s1.kubecontext, settings := [] }
        let cfg1 : Config := { cfg with ContextConfigs := cfg.ContextConfigs ++ [newCfg] }
        match writeFullConfig x cfg1 s1 with
        | (some err, s2) => (.error err, s2)
        | (none, s2) => (.ok (some newCfg), s2)

/-- The function `runList`. The stream `out` is the list of chunks written so
far; the result is the Go `error`, the stream afterwards and the state. -/
def runList (x : Ext φ β) (out : List β) (s : State φ β) :
    Option Error × List β × State φ β :=
  if s.showAll then
    match readConfig x s with
    | (.error err, s1) => (some err, out, s1)
    | (.ok cfg, s1) =>
      match x.marshalConfig cfg with
      | .error err => (some (.wrap err "marshaling config"), out, s1)
      | .ok configYaml => (none, out ++ [configYaml], s1)
  else
    match getConfigForKubectx x s with
    | (.error err, s1) => (some err, out, s1)
    | (.ok config, s1) =>
      match x.marshalContextConfig config with
      | .error err => (some (.wrap err "marshaling config"), out, s1)
      | .ok configYaml => (none, out ++ [configYaml], s1)

/-- The `RunE` closure of `NewCmdList`: resolve the context, then list. -/
def listCommand (x : Ext φ β) (out : List β) (s : State φ β) :
    Option Error × List β × State φ β :=
  runList x out (resolveKubectlContext x s)

/-! ## An in-memory instance of the collaborators -/

/-- A serialized document of the in-memory instance: a whole config, one
record, or the empty document of a truncated file. -/
inductive Doc where
  | config (c : Config)
  | record (r : Option ContextConfig)
  | empty
  deriving DecidableEq, Repr

/-- The files of the in-memory store, as bindings from path to contents. -/
abbrev MemStore := List (String × Doc)

/-- An in-memory instance of the collaborators: the context provider answers
`provider`, the store is writable when `writable` is set, the home directory
is `/home/user` and the working directory `/cwd`. -/
def memExt (provider : String × Option Error) (writable : Bool) : Ext MemStore Doc where
  currentContext := provider
  isAbs := fun p => p.data.head? = some '/'
  abs := fun p => .ok ("/cwd/" ++ p)
  homeDir := .ok "/home/user"
  join := fun a b => a ++ "/" ++ b
  stat := fun fs p =>
    match fs.lookup p with
    | some _ => none
    | none => some (.errorf "no such file or directory")
  readFile := fun fs p =>
    match fs.lookup p with
    | some d => .ok d
    | none => .error (.errorf "no such file or directory")
  writeFile := fun fs p d =>
    if writable then (none, (p, d) :: fs) else (some (.errorf "read-only file system"), fs)
  unmarshal := fun d =>
    match d with
    | .config c => .ok c
    | .record _ => .error (.errorf "cannot unmarshal into Config")
    | .empty => .ok { Global := none, ContextConfigs := [] }
  marshalConfig := fun c => .ok (.config c)
  marshalContextConfig := fun r => .ok (.record r)

/-- The in-memory instance on a full disk: a write opens and truncates the
file, then fails, leaving the empty document at the path. -/
def fullDiskExt : Ext MemStore Doc :=
  { memExt ("", none) true with
    writeFile := fun fs p _ => (some (.errorf "no space left on device"), (p, Doc.empty) :: fs) }

/-- The record `{Kubecontext: "prod"}`. -/
def prodRecord : ContextConfig := { Kubecontext := "prod", settings := [] }

/-- The example config of the spec: an empty global record and one context
record for `prod`. -/
def exampleConfig : Config :=
  { Global := some { Kubecontext := "", settings := [] }, ContextConfigs := [prodRecord] }

/-- A store holding the example config at the default location. -/
def exampleStore : MemStore := [("/home/user/.skaffold/config", .config exampleConfig)]

/-- A start state over the example store with the given flags and no explicit
config file. -/
def exampleState (kubecontext : String) (global showAll : Bool) : State MemStore Doc :=
  { kubecontext := kubecontext, configFile := "", global := global, showAll := showAll,
    fs := exampleStore, writes := [] }

/-- The example start state once `readConfig` has located the config file. -/
def exampleResolved (kubecontext : String) (global showAll : Bool) : State MemStore Doc :=
  { exampleState kubecontext global showAll with configFile := "/home/user/.skaffold/config" }

/-- The record `{Kubecontext: "staging"}`. -/
def stagingRecord : ContextConfig := { Kubecontext := "staging", settings := [] }

/-- The example store after a record for `staging` was created and persisted. -/
def createdStore : MemStore :=
  ("/home/user/.skaffold/config",
    Doc.config { Global := exampleConfig.Global, ContextConfigs := [prodRecord, stagingRecord] })
  :: exampleStore

/-- The state a first `getOrCreateConfigForKubectx` for `staging` leaves. -/
def createdState : State MemStore Doc :=
  { exampleResolved "staging" false false with
    fs := createdStore,
    writes := [("/home/user/.skaffold/config",
      Doc.config { Global := exampleConfig.Global,
                   ContextConfigs := [prodRecord, stagingRecord] })] }

/-- The example store after a write for `staging` failed on a full disk. -/
def truncatedStore : MemStore := ("/home/user/.skaffold/config", Doc.empty) :: exampleStore

/-- The state a `getOrCreateConfigForKubectx` for `staging` leaves on a full
disk. -/
def truncatedState : State MemStore Doc :=
  { exampleResolved "staging" false false with
    fs := truncatedStore,
    writes := [("/home/user/.skaffold/config",
      Doc.config { Global := exampleConfig.Global,
                   ContextConfigs := [prodRecord, stagingRecord] })] }

/-! ## Facts about the building blocks -/

theorem resolveConfigFile_frame (x : Ext φ β) (s : State φ β) :
    (resolveConfigFile x s).2.kubecontext = s.kubecontext ∧
    (resolveConfigFile x s).2.global = s.global ∧
    (resolveConfigFile x s).2.showAll = s.showAll ∧
    (resolveConfigFile x s).2.fs = s.fs ∧
    (resolveConfigFile x s).2.writes = s.writes := by
  unfold resolveConfigFile
  by_cases hc : s.configFile ≠ ""
  · by_cases ha : (!x.isAbs s.configFile) = true
    · cases hx : x.abs s.configFile <;> simp [hc, ha, hx]
    · simp [hc, ha]
  · cases hh : x.homeDir <;> simp [hc, hh]

/-- Reading the config changes no variable but `configFile`, and neither the
file store nor the write log. -/
theorem readConfig_frame (x : Ext φ β) (s : State φ β) :
    (readConfig x s).2.kubecontext = s.kubecontext ∧
    (readConfig x s).2.global = s.global ∧
    (readConfig x s).2.showAll = s.showAll ∧
    (readConfig x s).2.fs = s.fs ∧
    (readConfig x s).2.writes = s.writes := by
  have h := resolveConfigFile_frame x s
  unfold readConfig
  rcases hr : resolveConfigFile x s with ⟨e, s1⟩
  rw [hr] at h
  cases e <;> exact h

/-- What is read does not depend on `kubecontext`, `global` or `showAll`. -/
theorem readConfig_flags (x : Ext φ β) (s : State φ β) (k : String) (g a : Bool) :
    (readConfig x { s with kubecontext := k, global := g, showAll := a }).1 =
      (readConfig x s).1 := by
  unfold readConfig resolveConfigFile
  by_cases hc : s.configFile ≠ ""
  · by_cases ha : (!x.isAbs s.configFile) = true
    · cases hx : x.abs s.configFile with
      | error e => simp [hc, ha, hx]
      | ok q => cases hs : x.stat s.fs q <;> simp [hc, ha, hx, hs]
    · cases hs : x.stat s.fs s.configFile <;> simp [hc, ha, hs]
  · cases hh : x.homeDir with
    | error e => simp [hc, hh]
    | ok q =>
      cases hs : x.stat s.fs (x.join q defaultConfigLocation) <;> simp [hc, hh, hs]

theorem rangeContextConfigs_eq_none (k : String) (l : List ContextConfig) :
    rangeContextConfigs k l = none ↔ ∀ c ∈ l, c.Kubecontext ≠ k := by
  induction l with
  | nil => simp [rangeContextConfigs]
  | cons a l ih =>
    by_cases h : a.Kubecontext = k
    · simp [rangeContextConfigs, h]
    · simp [rangeContextConfigs, h, ih]

theorem rangeContextConfigs_some (k : String) (l : List ContextConfig) (c : ContextConfig)
    (h : rangeContextConfigs k l = some c) : c ∈ l ∧ c.Kubecontext = k := by
  induction l with
  | nil => simp [rangeContextConfigs] at h
  | cons a l ih =>
    by_cases ha : a.Kubecontext = k
    · simp [rangeContextConfigs, ha] at h
      subst h
      exact ⟨List.mem_cons_self _ _, ha⟩
    · simp [rangeContextConfigs, ha] at h
      exact ⟨List.mem_cons_of_mem _ (ih h).1, (ih h).2⟩

/-- The loop returns at the first index whose record carries the key. -/
theorem rangeContextConfigs_first (k : String) (l : List ContextConfig) (i : Nat)
    (hi : i < l.length) (hk : (l.get ⟨i, hi⟩).Kubecontext = k)
    (hlt : ∀ (j : Nat) (hj : j < i), (l.get ⟨j, Nat.lt_trans hj hi⟩).Kubecontext ≠ k) :
    rangeContextConfigs k l = some (l.get ⟨i, hi⟩) := by
  induction l generalizing i with
  | nil => simp at hi
  | cons a l ih =>
    cases i with
    | zero =>
      simp only [List.get_eq_getElem, List.getElem_cons_zero] at hk ⊢
      simp [rangeContextConfigs, hk]
    | succ n =>
      have h0 : a.Kubecontext ≠ k := by
        have := hlt 0 (Nat.succ_pos n)
        simpa using this
      have hn : n < l.length := by simpa using hi
      have hk1 : (l.get ⟨n, hn⟩).Kubecontext = k := by simpa using hk
      have hlt1 : ∀ (j : Nat) (hj : j < n),
          (l.get ⟨j, Nat.lt_trans hj hn⟩).Kubecontext ≠ k := by
        intro j hj
        have := hlt (j + 1) (Nat.succ_lt_succ hj)
        simpa using this
      have := ih n hn hk1 hlt1
      simp only [List.get_eq_getElem, List.getElem_cons_succ] at this ⊢
      simp [rangeContextConfigs, h0, this]

/-- After appending a fresh record for an unmatched key the loop finds it. -/
theorem rangeContextConfigs_append_new (k : String) (l : List ContextConfig)
    (h : rangeContextConfigs k l = none) :
    rangeContextConfigs k (l ++ [{ Kubecontext := k, settings := [] }]) =
      some { Kubecontext := k, settings := [] } := by
  induction l with
  | nil => simp [rangeContextConfigs]
  | cons a l ih =>
    by_cases ha : a.Kubecontext = k
    · simp [rangeContextConfigs, ha] at h
    · simp only [rangeContextConfigs, ha, if_false] at h
      simp [rangeContextConfigs, ha, ih h]

/-- With an unset `kubecontext` the resolver ends on the provider's string. -/
theorem resolveKubectlContext_unset (x : Ext φ β) (s : State φ β)
    (h : s.kubecontext = "") :
    (resolveKubectlContext x s).kubecontext = x.currentContext.1 := by
  simp [resolveKubectlContext, h]

theorem readConfig_frame_of_eq (x : Ext φ β) (s s1 : State φ β) (r : Except Error Config)
    (hr : readConfig x s = (r, s1)) :
    s1.kubecontext = s.kubecontext ∧ s1.global = s.global ∧ s1.showAll = s.showAll ∧
    s1.fs = s.fs ∧ s1.writes = s.writes := by
  have h := readConfig_frame x s
  rw [hr] at h
  exact h

/-- A successful `readConfig` located the file without error and parsed it. -/
theorem readConfig_ok_inv (x : Ext φ β) (s s1 : State φ β) (cfg : Config)
    (hr : readConfig x s = (.ok cfg, s1)) :
    resolveConfigFile x s = (none, s1) ∧ ReadConfigForFile x s1.fs s1.configFile = .ok cfg := by
  unfold readConfig at hr
  rcases hrc : resolveConfigFile x s with ⟨e, s2⟩
  rw [hrc] at hr
  cases e with
  | some err => simp at hr
  | none =>
    simp only [Prod.mk.injEq] at hr
    obtain ⟨h1, h2⟩ := hr
    subst h2
    exact ⟨rfl, h1⟩

/-- Where the config file is looked for depends on `configFile` alone: a state
with the same `configFile` is resolved to the same path, and only `os.Stat`
looks at the file store. -/
theorem resolveConfigFile_located (x : Ext φ β) (s s1 t : State φ β)
    (h : resolveConfigFile x s = (none, s1)) (hc : t.configFile = s.configFile) :
    resolveConfigFile x t =
      (x.stat t.fs s1.configFile, { t with configFile := s1.configFile }) := by
  obtain ⟨tk, tc, tg, ta, tf, tw⟩ := t
  simp only at hc
  subst hc
  unfold resolveConfigFile at h ⊢
  by_cases hcf : s.configFile ≠ ""
  · by_cases ha : (!x.isAbs s.configFile) = true
    · cases hx : x.abs s.configFile with
      | error e => simp [hcf, ha, hx] at h
      | ok q =>
        simp only [if_pos hcf, if_pos ha, hx, Prod.mk.injEq] at h ⊢
        obtain ⟨-, h2⟩ := h
        subst h2
        exact ⟨rfl, rfl⟩
    · simp only [if_pos hcf, if_neg ha, Prod.mk.injEq] at h ⊢
      obtain ⟨-, h2⟩ := h
      subst h2
      exact ⟨rfl, rfl⟩
  · cases hh : x.homeDir with
    | error e => simp [hcf, hh] at h
    | ok q =>
      simp only [if_neg hcf, hh, Prod.mk.injEq] at h ⊢
      obtain ⟨-, h2⟩ := h
      subst h2
      exact ⟨rfl, rfl⟩

/-- The in-memory serialization reads back what it wrote. -/
theorem memExt_unmarshal_marshal (provider : String × Option Error) (writable : Bool)
    (c : Config) (b : Doc) (h : (memExt provider writable).marshalConfig c = .ok b) :
    (memExt provider writable).unmarshal b = .ok c := by
  simp only [memExt, Except.ok.injEq] at h
  subst h
  rfl

/-- The in-memory store reads back what was written to it. -/
theorem memExt_read_written (provider : String × Option Error) (writable : Bool)
    (fs fs1 : MemStore) (p : String) (b : Doc)
    (h : (memExt provider writable).writeFile fs p b = (none, fs1)) :
    (memExt provider writable).stat fs1 p = none ∧
    (memExt provider writable).readFile fs1 p = .ok b := by
  cases writable with
  | false => simp [memExt] at h
  | true =>
    simp only [memExt, if_true, Prod.mk.injEq, true_and] at h
    subst h
    simp [memExt, List.lookup]

/-! ## The claims -/

/-- C1 (the code departs from the claim): with `kubecontext` unset, a provider
that succeeds with the empty string, and one that fails, both leave
`kubecontext` empty instead of `"default"`: the final assignment
`kubecontext = context` overwrites the fallback. -/
theorem resolveKubectlContext_fallback_overwritten :
    (resolveKubectlContext (memExt ("", none) true) (exampleState "" false false)).kubecontext
        = "" ∧
    (resolveKubectlContext (memExt ("", some (.errorf "kubectl: exit status 1")) true)
        (exampleState "" false false)).kubecontext = "" ∧
    ("" : String) ≠ "default" := by
  refine ⟨rfl, rfl, by decide⟩

/-- C2: a non-empty explicit `kubecontext` survives `resolveKubectlContext`
unchanged, whatever the context provider answers; the call changes nothing
else either. -/
theorem resolveKubectlContext_override (x : Ext φ β) (s : State φ β)
    (h : s.kubecontext ≠ "") :
    (resolveKubectlContext x s).kubecontext = s.kubecontext ∧
    resolveKubectlContext x s = s := by
  simp [resolveKubectlContext, h]

theorem resolveKubectlContext_override_witness :
    (exampleState "prod" false false).kubecontext ≠ "" ∧
    (resolveKubectlContext (memExt ("minikube", none) true)
        (exampleState "prod" false false)).kubecontext = "prod" :=
  ⟨by decide,
   (resolveKubectlContext_override (memExt ("minikube", none) true)
      (exampleState "prod" false false) (by decide)).1⟩

/-- C3: `getConfigForKubectx` with `global = false` on a config that was read
successfully returns the first record in list order whose `Kubecontext` is
the key; when no record carries the key it fails with the message
`no config entry found for kube-context ` followed by the key; and it
succeeds exactly when a matching record exists. -/
theorem getConfigForKubectx_lookup (x : Ext φ β) (s s1 : State φ β) (cfg : Config)
    (hg : s.global = false) (hr : readConfig x s = (.ok cfg, s1)) :
    (∀ (i : Nat) (hi : i < cfg.ContextConfigs.length),
        (cfg.ContextConfigs.get ⟨i, hi⟩).Kubecontext = s.kubecontext →
        (∀ (j : Nat) (hj : j < i),
          (cfg.ContextConfigs.get ⟨j, Nat.lt_trans hj hi⟩).Kubecontext ≠ s.kubecontext) →
        getConfigForKubectx x s = (.ok (some (cfg.ContextConfigs.get ⟨i, hi⟩)), s1)) ∧
    ((∀ c ∈ cfg.ContextConfigs, c.Kubecontext ≠ s.kubecontext) →
        getConfigForKubectx x s =
          (.error (.errorf ("no config entry found for kube-context " ++ s.kubecontext)), s1)) ∧
    ((∃ r, (getConfigForKubectx x s).1 = .ok r) ↔
        ∃ c ∈ cfg.ContextConfigs, c.Kubecontext = s.kubecontext) := by
  obtain ⟨hk, hg1, -, -, -⟩ := readConfig_frame_of_eq x s s1 _ hr
  have hg2 : s1.global = false := by rw [hg1, hg]
  refine ⟨?_, ?_, ?_⟩
  · intro i hi hki hlt
    have := rangeContextConfigs_first s.kubecontext cfg.ContextConfigs i hi hki hlt
    simp [getConfigForKubectx, hr, hg2, hk, this]
  · intro hnone
    have := (rangeContextConfigs_eq_none s.kubecontext cfg.ContextConfigs).2 hnone
    simp [getConfigForKubectx, hr, hg2, hk, this]
  · cases hrange : rangeContextConfigs s.kubecontext cfg.ContextConfigs with
    | none =>
      have hnone := (rangeContextConfigs_eq_none s.kubecontext cfg.ContextConfigs).1 hrange
      simp only [getConfigForKubectx, hr, hg2, hk, hrange]
      constructor
      · rintro ⟨r, h⟩
        simp at h
      · rintro ⟨c, hc, hck⟩
        exact absurd hck (hnone c hc)
    | some c =>
      have hc := rangeContextConfigs_some s.kubecontext cfg.ContextConfigs c hrange
      simp only [getConfigForKubectx, hr, hg2, hk, hrange]
      exact ⟨fun _ => ⟨c, hc.1, hc.2⟩, fun _ => ⟨some c, by simp⟩⟩

theorem getConfigForKubectx_lookup_witness :
    (exampleState "prod" false false).global = false ∧
    readConfig (memExt ("", none) true) (exampleState "prod" false false)
      = (.ok exampleConfig, exampleResolved "prod" false false) ∧
    getConfigForKubectx (memExt ("", none) true) (exampleState "prod" false false)
      = (.ok (some prodRecord), exampleResolved "prod" false false) :=
  ⟨rfl, rfl,
   (getConfigForKubectx_lookup (memExt ("", none) true) (exampleState "prod" false false)
      (exampleResolved "prod" false false) exampleConfig rfl rfl).1 0 (by decide) rfl
      (fun j hj => absurd hj (Nat.not_lt_zero j))⟩

/-- C4: with `global = true` on a config that was read successfully, both
`getConfigForKubectx` and `getOrCreateConfigForKubectx` return the `Global`
record of the config (which may be nil) with no error, whatever the key and
the list of context records are, and nothing is written. -/
theorem global_returns_Global (x : Ext φ β) (s s1 : State φ β) (cfg : Config)
    (hg : s.global = true) (hr : readConfig x s = (.ok cfg, s1)) :
    getConfigForKubectx x s = (.ok cfg.Global, s1) ∧
    getOrCreateConfigForKubectx x s = (.ok cfg.Global, s1) ∧
    s1.fs = s.fs ∧ s1.writes = s.writes ∧
    ∀ k : String,
      (getConfigForKubectx x { s with kubecontext := k }).1 = .ok cfg.Global ∧
      (getOrCreateConfigForKubectx x { s with kubecontext := k }).1 = .ok cfg.Global := by
  obtain ⟨-, hg1, -, hfs, hw⟩ := readConfig_frame_of_eq x s s1 _ hr
  have hg2 : s1.global = true := by rw [hg1, hg]
  refine ⟨by simp [getConfigForKubectx, hr, hg2],
    by simp [getOrCreateConfigForKubectx, hr, hg2], hfs, hw, ?_⟩
  intro k
  have hflags := readConfig_flags x s k s.global s.showAll
  rw [hr] at hflags
  rcases hrk : readConfig x { s with kubecontext := k } with ⟨r, sk⟩
  have hgk := (readConfig_frame_of_eq x _ sk r hrk).2.1
  rw [hrk] at hflags
  simp only at hflags hgk
  subst hflags
  have hgk2 : sk.global = true := by rw [hgk, hg]
  constructor
  · simp [getConfigForKubectx, hrk, hgk2]
  · simp [getOrCreateConfigForKubectx, hrk, hgk2]

theorem global_returns_Global_witness :
    (exampleState "prod" true false).global = true ∧
    readConfig (memExt ("", none) true) (exampleState "prod" true false)
      = (.ok exampleConfig, exampleResolved "prod" true false) ∧
    getConfigForKubectx (memExt ("", none) true) (exampleState "prod" true false)
      = (.ok exampleConfig.Global, exampleResolved "prod" true false) ∧
    getOrCreateConfigForKubectx (memExt ("", none) true) (exampleState "prod" true false)
      = (.ok exampleConfig.Global, exampleResolved "prod" true false) :=
  ⟨rfl, rfl,
   (global_returns_Global (memExt ("", none) true) (exampleState "prod" true false)
      (exampleResolved "prod" true false) exampleConfig rfl rfl).1,
   (global_returns_Global (memExt ("", none) true) (exampleState "prod" true false)
      (exampleResolved "prod" true false) exampleConfig rfl rfl).2.1⟩

/-- C5: with `global = false`, a key carried by no record of the config that
was read, and a persist step that succeeds (the updated config serializes and
the bytes are written), `getOrCreateConfigForKubectx` returns the record with
`Kubecontext` set to the key and nothing else set, and what it persists to
`configFile` is the config with the same `Global` record and the original
list followed by exactly that one record. -/
theorem getOrCreateConfigForKubectx_creates (x : Ext φ β) (s s1 : State φ β) (cfg : Config)
    (contents : β) (fs1 : φ)
    (hg : s.global = false) (hr : readConfig x s = (.ok cfg, s1))
    (hnone : ∀ c ∈ cfg.ContextConfigs, c.Kubecontext ≠ s.kubecontext)
    (hm : x.marshalConfig
        { Global := cfg.Global,
          ContextConfigs := cfg.ContextConfigs ++ [{ Kubecontext := s.kubecontext, settings := [] }] }
        = .ok contents)
    (hw : x.writeFile s1.fs s1.configFile contents = (none, fs1)) :
    getOrCreateConfigForKubectx x s =
      (.ok (some { Kubecontext := s.kubecontext, settings := [] }),
       { s1 with fs := fs1, writes := s1.writes ++ [(s1.configFile, contents)] }) ∧
    (cfg.ContextConfigs ++ [ContextConfig.mk s.kubecontext []]).length
      = cfg.ContextConfigs.length + 1 ∧
    (cfg.ContextConfigs ++ [ContextConfig.mk s.kubecontext []]).take
      cfg.ContextConfigs.length = cfg.ContextConfigs ∧
    (cfg.ContextConfigs ++ [ContextConfig.mk s.kubecontext []]).getLast?
      = some (ContextConfig.mk s.kubecontext []) := by
  obtain ⟨hk, hg1, -, -, -⟩ := readConfig_frame_of_eq x s s1 _ hr
  have hg2 : s1.global = false := by rw [hg1, hg]
  have hrange := (rangeContextConfigs_eq_none s.kubecontext cfg.ContextConfigs).2 hnone
  refine ⟨?_, by simp, by simp, by simp⟩
  simp [getOrCreateConfigForKubectx, hr, hg2, hk, hrange, writeFullConfig, hm, hw]

theorem getOrCreateConfigForKubectx_creates_witness :
    (exampleState "staging" false false).global = false ∧
    readConfig (memExt ("", none) true) (exampleState "staging" false false)
      = (.ok exampleConfig, exampleResolved "staging" false false) ∧
    getOrCreateConfigForKubectx (memExt ("", none) true) (exampleState "staging" false false) =
      (.ok (some { Kubecontext := "staging", settings := [] }),
       { exampleResolved "staging" false false with
         fs := ("/home/user/.skaffold/config",
                Doc.config { Global := exampleConfig.Global,
                             ContextConfigs := [prodRecord, { Kubecontext := "staging", settings := [] }] })
               :: exampleStore,
         writes := [("/home/user/.skaffold/config",
                Doc.config { Global := exampleConfig.Global,
                             ContextConfigs := [prodRecord, { Kubecontext := "staging", settings := [] }] })] }) :=
  ⟨rfl, rfl,
   (getOrCreateConfigForKubectx_creates (memExt ("", none) true)
      (exampleState "staging" false false) (exampleResolved "staging" false false)
      exampleConfig _ _ rfl rfl (by decide) rfl rfl).1⟩

/-- C7 as the claim states it fails: on a full disk the write truncates the
config file and then fails. `getOrCreateConfigForKubectx` for the unmatched
key `staging` returns that error and no record, yet the file store is not the
one from before the call, and a later read yields the empty config instead of
the example config. -/
theorem getOrCreateConfigForKubectx_persist_failure_counterexample :
    (exampleState "staging" false false).global = false ∧
    readConfig fullDiskExt (exampleState "staging" false false)
      = (.ok exampleConfig, exampleResolved "staging" false false) ∧
    (∀ c ∈ exampleConfig.ContextConfigs, c.Kubecontext ≠ "staging") ∧
    writeFullConfig fullDiskExt
      { Global := exampleConfig.Global, ContextConfigs := [prodRecord, stagingRecord] }
      (exampleResolved "staging" false false)
      = (some (.errorf "no space left on device"), truncatedState) ∧
    getOrCreateConfigForKubectx fullDiskExt (exampleState "staging" false false)
      = (.error (.errorf "no space left on device"), truncatedState) ∧
    truncatedState.fs ≠ (exampleState "staging" false false).fs ∧
    (readConfig fullDiskExt (exampleState "staging" false false)).1 = .ok exampleConfig ∧
    (readConfig fullDiskExt
      { exampleState "staging" false false with fs := truncatedState.fs }).1
      = .ok { Global := none, ContextConfigs := [] } ∧
    exampleConfig ≠ { Global := none, ContextConfigs := [] } :=
  ⟨rfl, rfl, by decide, rfl, rfl, by decide, rfl, rfl, by decide⟩

/-- C7, amended: with `global = false` and an unmatched key, when persisting
the updated config fails, `getOrCreateConfigForKubectx` returns that error and
no record, and makes no second attempt. When serialization fails nothing is
written and the file store is the one from before the call. When the write
fails, the one write attempted is that of the updated config to `configFile`,
and the file store afterwards is the store that failed write left. -/
theorem getOrCreateConfigForKubectx_persist_failure (x : Ext φ β) (s s1 : State φ β)
    (cfg : Config)
    (hg : s.global = false) (hr : readConfig x s = (.ok cfg, s1))
    (hnone : ∀ c ∈ cfg.ContextConfigs, c.Kubecontext ≠ s.kubecontext) :
    (∀ err : Error,
      x.marshalConfig
        { Global := cfg.Global,
          ContextConfigs := cfg.ContextConfigs ++ [ContextConfig.mk s.kubecontext []] }
        = .error err →
      getOrCreateConfigForKubectx x s = (.error err, s1) ∧
      s1.fs = s.fs ∧ s1.writes = s.writes) ∧
    (∀ (contents : β) (err : Error) (fs1 : φ),
      x.marshalConfig
        { Global := cfg.Global,
          ContextConfigs := cfg.ContextConfigs ++ [ContextConfig.mk s.kubecontext []] }
        = .ok contents →
      x.writeFile s.fs s1.configFile contents = (some err, fs1) →
      getOrCreateConfigForKubectx x s =
        (.error err,
         { s1 with fs := fs1, writes := s.writes ++ [(s1.configFile, contents)] })) := by
  obtain ⟨hk, hg1, -, hfs, hw⟩ := readConfig_frame_of_eq x s s1 _ hr
  have hg2 : s1.global = false := by rw [hg1, hg]
  have hrange := (rangeContextConfigs_eq_none s.kubecontext cfg.ContextConfigs).2 hnone
  refine ⟨?_, ?_⟩
  · intro err hm
    refine ⟨?_, hfs, hw⟩
    simp [getOrCreateConfigForKubectx, hr, hg2, hk, hrange, writeFullConfig, hm]
  · intro contents err fs1 hm hwr
    rw [← hfs] at hwr
    simp [getOrCreateConfigForKubectx, hr, hg2, hk, hrange, writeFullConfig, hm, hwr, hw]

theorem getOrCreateConfigForKubectx_persist_failure_witness :
    (exampleState "staging" false false).global = false ∧
    readConfig (memExt ("", none) false) (exampleState "staging" false false)
      = (.ok exampleConfig, exampleResolved "staging" false false) ∧
    getOrCreateConfigForKubectx (memExt ("", none) false) (exampleState "staging" false false)
      = (.error (.errorf "read-only file system"),
         { exampleResolved "staging" false false with
           fs := exampleStore,
           writes := [("/home/user/.skaffold/config",
             Doc.config { Global := exampleConfig.Global,
                          ContextConfigs := [prodRecord, stagingRecord] })] }) :=
  ⟨rfl, rfl,
   (getOrCreateConfigForKubectx_persist_failure (memExt ("", none) false)
      (exampleState "staging" false false) (exampleResolved "staging" false false)
      exampleConfig rfl rfl (by decide)).2
      (Doc.config { Global := exampleConfig.Global,
                    ContextConfigs := [prodRecord, stagingRecord] })
      (.errorf "read-only file system") exampleStore rfl rfl⟩

/-- C6: idempotence of `getOrCreateConfigForKubectx` with `global = false`,
assuming that reading back what was persisted yields it: a file that was
written is found by `os.Stat` and read with the written bytes, and the bytes
of a serialized config parse to that config. Let a first call on `s0` succeed
with record `r1` and leave state `s1`, and let `t` be a later invocation over
the file store `s1` left, with the same `configFile` and key. Then the call on
`t` returns `r1` again, leaves the file store untouched and writes nothing;
and when the key was initially unmatched, the config persisted by the first
call and still in the file after the second is the initial one with one record
appended, so its list has one record more and exactly one record for the
key. -/
theorem getOrCreateConfigForKubectx_idempotent (x : Ext φ β) (s0 s0r s1 t : State φ β)
    (cfg0 : Config) (r1 : Option ContextConfig)
    (hyaml : ∀ (c : Config) (b : β), x.marshalConfig c = .ok b → x.unmarshal b = .ok c)
    (hstore : ∀ (fs fs1 : φ) (p : String) (b : β), x.writeFile fs p b = (none, fs1) →
      x.stat fs1 p = none ∧ x.readFile fs1 p = .ok b)
    (hg : s0.global = false) (hr0 : readConfig x s0 = (.ok cfg0, s0r))
    (h1 : getOrCreateConfigForKubectx x s0 = (.ok r1, s1))
    (htfs : t.fs = s1.fs) (htc : t.configFile = s0.configFile)
    (htk : t.kubecontext = s0.kubecontext) (htg : t.global = false) :
    (getOrCreateConfigForKubectx x t).1 = .ok r1 ∧
    (getOrCreateConfigForKubectx x t).2.fs = s1.fs ∧
    (getOrCreateConfigForKubectx x t).2.writes = t.writes ∧
    ((∀ c ∈ cfg0.ContextConfigs, c.Kubecontext ≠ s0.kubecontext) →
      (readConfig x { t with fs := (getOrCreateConfigForKubectx x t).2.fs }).1 =
        .ok { Global := cfg0.Global,
              ContextConfigs := cfg0.ContextConfigs ++ [ContextConfig.mk s0.kubecontext []] } ∧
      (cfg0.ContextConfigs ++ [ContextConfig.mk s0.kubecontext []]).length
        = cfg0.ContextConfigs.length + 1 ∧
      ((cfg0.ContextConfigs ++ [ContextConfig.mk s0.kubecontext []]).filter
        (fun c => c.Kubecontext = s0.kubecontext)).length = 1) := by
  obtain ⟨hk, hg1, -, hfs0, -⟩ := readConfig_frame_of_eq x s0 s0r _ hr0
  have hg2 : s0r.global = false := by rw [hg1, hg]
  obtain ⟨hres0, hparse0⟩ := readConfig_ok_inv x s0 s0r cfg0 hr0
  have hloct := resolveConfigFile_located x s0 s0r t hres0 htc
  have hloc0 := resolveConfigFile_located x s0 s0r s0 hres0 rfl
  have hstat0 : x.stat s0.fs s0r.configFile = none := by
    rw [hres0] at hloc0
    simp only [Prod.mk.injEq] at hloc0
    exact hloc0.1.symm
  cases hrange : rangeContextConfigs s0.kubecontext cfg0.ContextConfigs with
  | none =>
    have hnew := rangeContextConfigs_append_new s0.kubecontext cfg0.ContextConfigs hrange
    have hnone := (rangeContextConfigs_eq_none s0.kubecontext cfg0.ContextConfigs).1 hrange
    -- what the first call did: it serialized and wrote the extended config
    simp only [getOrCreateConfigForKubectx, hr0, hg2, hk, hrange, Bool.false_eq_true,
      if_false, writeFullConfig] at h1
    cases hm : x.marshalConfig
        { Global := cfg0.Global,
          ContextConfigs := cfg0.ContextConfigs ++ [ContextConfig.mk s0.kubecontext []] } with
    | error e => simp [hm] at h1
    | ok contents =>
      rcases hwf : x.writeFile s0r.fs s0r.configFile contents with ⟨e, fs1⟩
      cases e with
      | some err => simp [hm, hwf] at h1
      | none =>
        simp only [hm, hwf, Prod.mk.injEq, Except.ok.injEq] at h1
        obtain ⟨hr1, hs1⟩ := h1
        have hs1fs : s1.fs = fs1 := by rw [← hs1]
        obtain ⟨hstat, hread⟩ := hstore _ _ _ _ hwf
        have htfs1 : t.fs = fs1 := by rw [htfs, hs1fs]
        have hrt : readConfig x t =
            (.ok { Global := cfg0.Global,
                   ContextConfigs := cfg0.ContextConfigs ++ [ContextConfig.mk s0.kubecontext []] },
             { t with configFile := s0r.configFile }) := by
          simp [readConfig, hloct, htfs1, hstat, ReadConfigForFile, hread, hyaml _ _ hm]
        have hcall : getOrCreateConfigForKubectx x t =
            (.ok r1, { t with configFile := s0r.configFile }) := by
          simp [getOrCreateConfigForKubectx, hrt, htg, htk, hnew, ← hr1]
        have hsame : ({ t with fs := (getOrCreateConfigForKubectx x t).2.fs } : State φ β) = t := by
          rw [hcall]
        refine ⟨by rw [hcall], by rw [hcall]; exact htfs, by rw [hcall], ?_⟩
        intro _
        refine ⟨by rw [hsame, hrt], by simp, ?_⟩
        have hfilter :
            cfg0.ContextConfigs.filter (fun c => c.Kubecontext = s0.kubecontext) = [] := by
          rw [List.filter_eq_nil_iff]
          intro c hc
          simpa using hnone c hc
        simp [List.filter_append, hfilter]
  | some c =>
    have hc := rangeContextConfigs_some s0.kubecontext cfg0.ContextConfigs c hrange
    simp only [getOrCreateConfigForKubectx, hr0, hg2, hk, hrange, Bool.false_eq_true,
      if_false, Prod.mk.injEq, Except.ok.injEq] at h1
    obtain ⟨hr1, hs1⟩ := h1
    have htfs0 : t.fs = s0r.fs := by rw [htfs, ← hs1]
    have hrt : readConfig x t = (.ok cfg0, { t with configFile := s0r.configFile }) := by
      rw [hfs0] at htfs0 hparse0
      simp [readConfig, hloct, htfs0, hstat0, hparse0]
    have hcall : getOrCreateConfigForKubectx x t =
        (.ok r1, { t with configFile := s0r.configFile }) := by
      simp [getOrCreateConfigForKubectx, hrt, htg, htk, hrange, ← hr1]
    refine ⟨by rw [hcall], by rw [hcall]; exact htfs, by rw [hcall], ?_⟩
    intro hnone
    exact absurd hc.2 (hnone c hc.1)

theorem getOrCreateConfigForKubectx_idempotent_witness :
    getOrCreateConfigForKubectx (memExt ("", none) true) (exampleState "staging" false false)
      = (.ok (some stagingRecord), createdState) ∧
    (getOrCreateConfigForKubectx (memExt ("", none) true)
      { exampleState "staging" false false with fs := createdStore }).1
      = .ok (some stagingRecord) ∧
    (getOrCreateConfigForKubectx (memExt ("", none) true)
      { exampleState "staging" false false with fs := createdStore }).2.fs = createdStore ∧
    (getOrCreateConfigForKubectx (memExt ("", none) true)
      { exampleState "staging" false false with fs := createdStore }).2.writes = [] ∧
    (readConfig (memExt ("", none) true)
      { exampleState "staging" false false with fs := createdStore }).1
      = .ok { Global := exampleConfig.Global, ContextConfigs := [prodRecord, stagingRecord] } :=
  ⟨rfl,
   (getOrCreateConfigForKubectx_idempotent (memExt ("", none) true)
      (exampleState "staging" false false) (exampleResolved "staging" false false)
      createdState { exampleState "staging" false false with fs := createdStore }
      exampleConfig (some stagingRecord)
      (memExt_unmarshal_marshal ("", none) true) (memExt_read_written ("", none) true)
      rfl rfl rfl rfl rfl rfl rfl).1,
   (getOrCreateConfigForKubectx_idempotent (memExt ("", none) true)
      (exampleState "staging" false false) (exampleResolved "staging" false false)
      createdState { exampleState "staging" false false with fs := createdStore }
      exampleConfig (some stagingRecord)
      (memExt_unmarshal_marshal ("", none) true) (memExt_read_written ("", none) true)
      rfl rfl rfl rfl rfl rfl rfl).2.1,
   (getOrCreateConfigForKubectx_idempotent (memExt ("", none) true)
      (exampleState "staging" false false) (exampleResolved "staging" false false)
      createdState { exampleState "staging" false false with fs := createdStore }
      exampleConfig (some stagingRecord)
      (memExt_unmarshal_marshal ("", none) true) (memExt_read_written ("", none) true)
      rfl rfl rfl rfl rfl rfl rfl).2.2.1,
   ((getOrCreateConfigForKubectx_idempotent (memExt ("", none) true)
      (exampleState "staging" false false) (exampleResolved "staging" false false)
      createdState { exampleState "staging" false false with fs := createdStore }
      exampleConfig (some stagingRecord)
      (memExt_unmarshal_marshal ("", none) true) (memExt_read_written ("", none) true)
      rfl rfl rfl rfl rfl rfl rfl).2.2.2 (by decide)).1⟩

/-- C10: `getOrCreateConfigForKubectx` refines `getConfigForKubectx`. Whenever
`getConfigForKubectx` succeeds, which is exactly when the config is read and
either `global` is set or some record carries the key,
`getOrCreateConfigForKubectx` returns the same record and the same state, with
the file store untouched and nothing written; the two results can differ only
when the config is read, `global` is false and no record carries the key. -/
theorem getOrCreateConfigForKubectx_refines (x : Ext φ β) (s : State φ β) :
    (∀ (r : Option ContextConfig) (s1 : State φ β),
      getConfigForKubectx x s = (.ok r, s1) →
      getOrCreateConfigForKubectx x s = (.ok r, s1) ∧ s1.fs = s.fs ∧ s1.writes = s.writes) ∧
    ((∃ r s1, getConfigForKubectx x s = (.ok r, s1)) ↔
      ∃ cfg s1, readConfig x s = (.ok cfg, s1) ∧
        (s.global = true ∨ ∃ c ∈ cfg.ContextConfigs, c.Kubecontext = s.kubecontext)) ∧
    (getConfigForKubectx x s ≠ getOrCreateConfigForKubectx x s →
      ∃ cfg s1, readConfig x s = (.ok cfg, s1) ∧ s.global = false ∧
        ∀ c ∈ cfg.ContextConfigs, c.Kubecontext ≠ s.kubecontext) := by
  rcases hr : readConfig x s with ⟨r0, s1⟩
  obtain ⟨hk, hg1, -, hfs, hw⟩ := readConfig_frame_of_eq x s s1 _ hr
  cases r0 with
  | error e =>
    refine ⟨?_, ?_, ?_⟩
    · intro r s2 h
      simp [getConfigForKubectx, hr] at h
    · constructor
      · rintro ⟨r, s2, h⟩
        simp [getConfigForKubectx, hr] at h
      · rintro ⟨cfg, s2, h, -⟩
        simp at h
    · intro h
      exact absurd (by simp [getConfigForKubectx, getOrCreateConfigForKubectx, hr]) h
  | ok cfg =>
    cases hg : s.global with
    | true =>
      have hg2 : s1.global = true := by rw [hg1, hg]
      refine ⟨?_, ?_, ?_⟩
      · intro r s2 h
        simp only [getConfigForKubectx, hr, hg2, if_true, Prod.mk.injEq, Except.ok.injEq] at h
        obtain ⟨h1, h2⟩ := h
        subst h1 h2
        exact ⟨by simp [getOrCreateConfigForKubectx, hr, hg2], hfs, hw⟩
      · constructor
        · intro _
          exact ⟨cfg, s1, rfl, Or.inl rfl⟩
        · intro _
          exact ⟨cfg.Global, s1, by simp [getConfigForKubectx, hr, hg2]⟩
      · intro h
        exact absurd (by simp [getConfigForKubectx, getOrCreateConfigForKubectx, hr, hg2]) h
    | false =>
      have hg2 : s1.global = false := by rw [hg1, hg]
      cases hrange : rangeContextConfigs s.kubecontext cfg.ContextConfigs with
      | none =>
        have hnone := (rangeContextConfigs_eq_none s.kubecontext cfg.ContextConfigs).1 hrange
        refine ⟨?_, ?_, ?_⟩
        · intro r s2 h
          simp [getConfigForKubectx, hr, hg2, hk, hrange] at h
        · constructor
          · rintro ⟨r, s2, h⟩
            simp [getConfigForKubectx, hr, hg2, hk, hrange] at h
          · rintro ⟨cfg2, s2, h, hor⟩
            simp only [Prod.mk.injEq, Except.ok.injEq] at h
            obtain ⟨h1, -⟩ := h
            subst h1
            rcases hor with hf | ⟨c, hc, hck⟩
            · simp at hf
            · exact absurd hck (hnone c hc)
        · intro _
          exact ⟨cfg, s1, rfl, rfl, hnone⟩
      | some c =>
        have hc := rangeContextConfigs_some s.kubecontext cfg.ContextConfigs c hrange
        refine ⟨?_, ?_, ?_⟩
        · intro r s2 h
          simp only [getConfigForKubectx, hr, hg2, hk, hrange, Bool.false_eq_true, if_false,
            Prod.mk.injEq, Except.ok.injEq] at h
          obtain ⟨h1, h2⟩ := h
          subst h1 h2
          exact ⟨by simp [getOrCreateConfigForKubectx, hr, hg2, hk, hrange], hfs, hw⟩
        · constructor
          · intro _
            exact ⟨cfg, s1, rfl, Or.inr ⟨c, hc.1, hc.2⟩⟩
          · intro _
            exact ⟨some c, s1, by simp [getConfigForKubectx, hr, hg2, hk, hrange]⟩
        · intro h
          exact absurd
            (by simp [getConfigForKubectx, getOrCreateConfigForKubectx, hr, hg2, hk, hrange]) h

theorem getOrCreateConfigForKubectx_refines_witness :
    getConfigForKubectx (memExt ("", none) true) (exampleState "prod" false false)
      = (.ok (some prodRecord), exampleResolved "prod" false false) ∧
    getOrCreateConfigForKubectx (memExt ("", none) true) (exampleState "prod" false false)
      = (.ok (some prodRecord), exampleResolved "prod" false false) ∧
    (exampleResolved "prod" false false).fs = (exampleState "prod" false false).fs ∧
    (exampleResolved "prod" false false).writes = (exampleState "prod" false false).writes :=
  ⟨rfl,
   (getOrCreateConfigForKubectx_refines (memExt ("", none) true)
      (exampleState "prod" false false)).1 (some prodRecord)
      (exampleResolved "prod" false false) rfl⟩

/-- C8 (the code departs from the claim): with no current context set, so that
`resolveKubectlContext` leaves `kubecontext` empty, and `global` not set,
`getConfigForKubectx` does not return the global record of the example config:
it scans the list for the empty key and fails with
`no config entry found for kube-context `. -/
theorem getConfigForKubectx_unset_context_fails :
    (resolveKubectlContext (memExt ("", none) true) (exampleState "" false false)).kubecontext
      = "" ∧
    (resolveKubectlContext (memExt ("", none) true) (exampleState "" false false)).global
      = false ∧
    getConfigForKubectx (memExt ("", none) true)
      (resolveKubectlContext (memExt ("", none) true) (exampleState "" false false))
      = (.error (.errorf "no config entry found for kube-context "),
         exampleResolved "" false false) ∧
    exampleConfig.Global = some { Kubecontext := "", settings := [] } :=
  ⟨rfl, rfl, rfl, rfl⟩

/-- C9: `runList`. With `showAll` set and the config read, the one chunk
written to the stream is the serialization of the whole config, whatever
`kubecontext` and `global` are. With `showAll` not set, the chunk written is
the serialization of the record `getConfigForKubectx` selects. When reading or
selection fails `runList` returns that error, when marshaling fails it returns
that error wrapped with `marshaling config`, and whenever `runList` returns an
error the stream is as it was. -/
theorem runList_output (x : Ext φ β) (out : List β) (s : State φ β) :
    (∀ (cfg : Config) (s1 : State φ β) (bytes : β),
      s.showAll = true → readConfig x s = (.ok cfg, s1) → x.marshalConfig cfg = .ok bytes →
      runList x out s = (none, out ++ [bytes], s1) ∧
      ∀ (k : String) (g : Bool),
        (runList x out { s with kubecontext := k, global := g }).1 = none ∧
        (runList x out { s with kubecontext := k, global := g }).2.1 = out ++ [bytes]) ∧
    (∀ (r : Option ContextConfig) (s1 : State φ β) (bytes : β),
      s.showAll = false → getConfigForKubectx x s = (.ok r, s1) →
      x.marshalContextConfig r = .ok bytes →
      runList x out s = (none, out ++ [bytes], s1)) ∧
    (∀ (err : Error) (s1 : State φ β),
      s.showAll = true → readConfig x s = (.error err, s1) →
      runList x out s = (some err, out, s1)) ∧
    (∀ (err : Error) (s1 : State φ β),
      s.showAll = false → getConfigForKubectx x s = (.error err, s1) →
      runList x out s = (some err, out, s1)) ∧
    (∀ (cfg : Config) (s1 : State φ β) (err : Error),
      s.showAll = true → readConfig x s = (.ok cfg, s1) → x.marshalConfig cfg = .error err →
      runList x out s = (some (.wrap err "marshaling config"), out, s1)) ∧
    (∀ (r : Option ContextConfig) (s1 : State φ β) (err : Error),
      s.showAll = false → getConfigForKubectx x s = (.ok r, s1) →
      x.marshalContextConfig r = .error err →
      runList x out s = (some (.wrap err "marshaling config"), out, s1)) ∧
    (∀ err : Error, (runList x out s).1 = some err → (runList x out s).2.1 = out) := by
  refine ⟨?_, ?_, ?_, ?_, ?_, ?_, ?_⟩
  · intro cfg s1 bytes ha hr hm
    refine ⟨by simp [runList, ha, hr, hm], ?_⟩
    intro k g
    have hflags := readConfig_flags x s k g s.showAll
    rcases hrk : readConfig x { s with kubecontext := k, global := g } with ⟨r, sk⟩
    rw [hrk, hr] at hflags
    simp only at hflags
    subst hflags
    rw [ha] at hrk
    simp [runList, ha, hrk, hm]
  · intro r s1 bytes ha hsel hm
    simp [runList, ha, hsel, hm]
  · intro err s1 ha hr
    simp [runList, ha, hr]
  · intro err s1 ha hsel
    simp [runList, ha, hsel]
  · intro cfg s1 err ha hr hm
    simp [runList, ha, hr, hm]
  · intro r s1 err ha hsel hm
    simp [runList, ha, hsel, hm]
  · intro err h
    cases ha : s.showAll with
    | true =>
      rcases hr : readConfig x s with ⟨r, s1⟩
      cases r with
      | error e => simp [runList, ha, hr]
      | ok cfg =>
        cases hm : x.marshalConfig cfg with
        | error e => simp [runList, ha, hr, hm]
        | ok b => simp [runList, ha, hr, hm] at h
    | false =>
      rcases hsel : getConfigForKubectx x s with ⟨r, s1⟩
      cases r with
      | error e => simp [runList, ha, hsel]
      | ok c =>
        cases hm : x.marshalContextConfig c with
        | error e => simp [runList, ha, hsel, hm]
        | ok b => simp [runList, ha, hsel, hm] at h

theorem runList_output_witness :
    runList (memExt ("", none) true) [] (exampleState "staging" false true)
      = (none, [Doc.config exampleConfig], exampleResolved "staging" false true) ∧
    runList (memExt ("", none) true) [] (exampleState "prod" false false)
      = (none, [Doc.record (some prodRecord)], exampleResolved "prod" false false) ∧
    runList (memExt ("", none) true) [] (exampleState "staging" false false)
      = (some (.errorf "no config entry found for kube-context staging"), [],
         exampleResolved "staging" false false) :=
  ⟨((runList_output (memExt ("", none) true) [] (exampleState "staging" false true)).1
      exampleConfig (exampleResolved "staging" false true) (Doc.config exampleConfig)
      rfl rfl rfl).1,
   (runList_output (memExt ("", none) true) [] (exampleState "prod" false false)).2.1
      (some prodRecord) (exampleResolved "prod" false false) (Doc.record (some prodRecord))
      rfl rfl rfl,
   (runList_output (memExt ("", none) true) [] (exampleState "staging" false false)).2.2.2.1
      (.errorf "no config entry found for kube-context staging")
      (exampleResolved "staging" false false) rfl rfl⟩

end Skaffold
